import Mathlib

/-!
Shallow embedding of the request-execution core of the `ai_agent` Python SDK
(retry with exponential backoff, connection pool lifecycle, error
classification, URL validation and client metrics), together with theorems
settling the specification claims about it.

Conventions of the embedding:
* Python `int` is modelled as `Int` (or `Nat` where the source value is a
  count that is never negative, such as `max_retries` iterated by
  `range(max_retries + 1)`).
* Python `float` arithmetic is idealised as exact rational arithmetic `ℚ`;
  `int(x)` truncation toward zero is `pyTrunc`.
* An asynchronous operation under retry is modelled as a function from the
  0-based attempt index to that attempt's outcome `Except E T`.
* Raised exceptions are modelled as `Except`/sum results; an exception that
  is not part of the SDK's typed taxonomy (e.g. `AttributeError`) is carried
  explicitly as a `PyExc` value.
-/

namespace AiAgent

/-! ## retry.py -/

/-- `int()` truncation toward zero applied to an (idealised) float. -/
def pyTrunc (q : ℚ) : Int :=
  if q < 0 then Int.ceil q else Int.floor q

/-- Embeds `RetryConfig` from `retry.py`. -/
structure RetryConfig where
  max_retries : Nat
  initial_delay : Int
  max_delay : Int
  backoff_multiplier : ℚ

/-- Embeds `calculate_delay` from `retry.py`:
`delay = int(initial_delay * (backoff_multiplier ** (attempt - 1)));
return min(delay, max_delay)`. -/
def calculate_delay (attempt : Nat) (initial_delay : Int) (max_delay : Int)
    (backoff_multiplier : ℚ) : Int :=
  min (pyTrunc ((initial_delay : ℚ) * backoff_multiplier ^ (attempt - 1))) max_delay

/-- Embeds the loop of `retry` from `retry.py`.  `remaining` is
`max_retries - attempt` (the loop guard `attempt == config.max_retries` is
`remaining = 0`); `attempt` is the 0-based index of the current attempt.
Returns the overall result, the number of invocations of `f` performed, and
the list of backoff delays slept between attempts. -/
def retryFrom (f : Nat → Except E T) (cfg : RetryConfig) :
    Nat → Nat → Except E T × Nat × List Int
  | remaining, attempt =>
    match f attempt with
    | .ok v => (.ok v, 1, [])
    | .error e =>
      match remaining with
      | 0 => (.error e, 1, [])
      | r + 1 =>
        let d := calculate_delay (attempt + 1) cfg.initial_delay cfg.max_delay
          cfg.backoff_multiplier
        let rest := retryFrom f cfg r (attempt + 1)
        (rest.1, rest.2.1 + 1, d :: rest.2.2)

/-- Embeds `retry` from `retry.py` for `max_retries ≥ 0`: the Python loop
`for attempt in range(config.max_retries + 1)` starting at attempt 0. -/
def retry (f : Nat → Except E T) (cfg : RetryConfig) : Except E T × Nat × List Int :=
  retryFrom f cfg cfg.max_retries 0

/-- `leadsWith needle hay` is `true` iff `needle` is an initial segment of
`hay` (character-exact). -/
def leadsWith : List Char → List Char → Bool
  | [], _ => true
  | _ :: _, [] => false
  | a :: as, b :: bs => a == b && leadsWith as bs

/-- Python's substring test `needle in hay` on character lists. -/
def containsSub (needle : List Char) : List Char → Bool
  | [] => needle.isEmpty
  | c :: rest => leadsWith needle (c :: rest) || containsSub needle rest

/-- Python's substring test `needle in hay` on strings, after the
`str.lower()` normalisation applied by `is_retryable_error`. -/
def inLower (needle hay : String) : Bool :=
  containsSub needle.toList (hay.toList.map Char.toLower)

/-- Embeds `is_retryable_error` from `retry.py` (its early-return chain of
substring tests over the lowercased message). -/
def is_retryable_error (err : String) : Bool :=
  if (inLower "connection refused" err
      || inLower "connection reset" err
      || inLower "timeout" err
      || inLower "not found" err) then true
  else if (inLower "5" err || inLower "server error" err) then true
  else if (inLower "429" err || inLower "rate limit" err) then true
  else if (inLower "503" err || inLower "service unavailable" err) then true
  else false

/-- `true` iff the character list contains a three-digit run `5dd`
(a literal 5xx HTTP status mentioned in the message). -/
def hasDigit5xx : List Char → Bool
  | [] => false
  | c1 :: rest =>
    (match rest with
     | c2 :: c3 :: _ => c1 == '5' && c2.isDigit && c3.isDigit
     | _ => false) || hasDigit5xx rest

/-- Modelled from the spec's words (for comparison with `is_retryable_error`):
the message "indicates connection failure, timeout, not-found, any 5xx
status, 429/rate limit, or service unavailable". -/
def specRetryIndicated (err : String) : Bool :=
  inLower "connection refused" err
    || inLower "connection reset" err
    || inLower "timeout" err
    || inLower "not found" err
    || hasDigit5xx (err.toList.map Char.toLower)
    || inLower "server error" err
    || inLower "429" err
    || inLower "rate limit" err
    || inLower "service unavailable" err

/-! ## JSON values and Python dynamic behaviour -/

/-- A JSON value as parsed from a response body (numbers idealised as `Int`,
which suffices for the claims). -/
inductive Json where
  | null : Json
  | bool (b : Bool) : Json
  | num (n : Int) : Json
  | str (s : String) : Json
  | arr (elems : List Json) : Json
  | obj (fields : List (String × Json)) : Json

/-- Python truthiness of a JSON value (`bool(x)`). -/
def Json.truthy : Json → Bool
  | .null => false
  | .bool b => b
  | .num n => n != 0
  | .str s => !s.isEmpty
  | .arr elems => !elems.isEmpty
  | .obj fields => !fields.isEmpty

/-- First-binding lookup in a JSON object's field list. -/
def jlookup (k : String) : List (String × Json) → Option Json
  | [] => none
  | (k', v) :: rest => if k' = k then some v else jlookup k rest

/-- A Python exception that is not part of the SDK's typed taxonomy
(`AttributeError` is the one the embedded code can raise). -/
inductive PyExc where
  | attributeError (msg : String) : PyExc
deriving DecidableEq

/-- Python's `body.get(key, default)`: raises `AttributeError` when the
receiver is not a dict. -/
def pyGet (j : Json) (k : String) (dflt : Json) : Except PyExc Json :=
  match j with
  | .obj fields => .ok ((jlookup k fields).getD dflt)
  | _ => .error (.attributeError "object has no attribute get")

/-! ## errors.py -/

/-- Embeds the fields shared by the `AgentClientError` hierarchy in
`errors.py`, together with the concrete class raised (`kind`).  `message`
and `code` are JSON values because `_handle_error_response` passes
body-supplied values through unchecked; `details` is `Json.null` when the
body carries none (Python `None`). -/
structure TypedError where
  kind : String
  message : Json
  code : Json
  status_code : Option Int
  details : Json

/-- `AgentClientError(message, code, status_code, details)` (Python defaults
`status_code=None`, `details=None` are passed explicitly here). -/
def AgentClientError (message : Json) (code : Json)
    (status_code : Option Int) (details : Json) : TypedError :=
  ⟨"AgentClientError", message, code, status_code, details⟩

/-- `ValidationError(message, details)`: code `VALIDATION_ERROR`, status 400. -/
def ValidationError (message : Json) (details : Json) : TypedError :=
  ⟨"ValidationError", message, .str "VALIDATION_ERROR", some 400, details⟩

/-- `NotFoundError(message)`: code `NOT_FOUND`, status 404. -/
def NotFoundError (message : Json) : TypedError :=
  ⟨"NotFoundError", message, .str "NOT_FOUND", some 404, .null⟩

/-! ## pool.py -/

/-- An `aiohttp.ClientSession` handle: its creation generation (object
identity) and whether `session.close()` has been awaited on it. -/
structure Session where
  gen : Nat
  closed : Bool
deriving DecidableEq

/-- Embeds the mutable state of `ConnectionPool`: `session` (`None` until
created) and the `_closed` flag; `nextGen` numbers session objects so that
"same underlying handle" is expressible. -/
structure PoolState where
  session : Option Session
  closedFlag : Bool
  nextGen : Nat
deriving DecidableEq

/-- Pool state as built by `ConnectionPool.__init__`. -/
def PoolState.init : PoolState :=
  { session := none, closedFlag := false, nextGen := 0 }

/-- Embeds `ConnectionPool.initialize`: creates the session only if
`self.session is None`. -/
def PoolState.initializePool (s : PoolState) : PoolState :=
  match s.session with
  | none =>
    { session := some ⟨s.nextGen, false⟩, closedFlag := s.closedFlag
      nextGen := s.nextGen + 1 }
  | some _ => s

/-- Embeds `ConnectionPool.acquire`: initializes if `self.session is None`,
then returns `self.session`.  The source has no failure path: it always
hands back a session object. -/
def PoolState.acquire (s : PoolState) : Session × PoolState :=
  match s.session with
  | some sess => (sess, s)
  | none => (⟨s.nextGen, false⟩, PoolState.initializePool s)

/-- Embeds `ConnectionPool.close`: only `if self.session:` (a session object
is always truthy) does it close the session and set `_closed = True`;
`self.session` is never reset to `None`. -/
def PoolState.close (s : PoolState) : PoolState :=
  match s.session with
  | some sess => { s with session := some { sess with closed := true }, closedFlag := true }
  | none => s

/-! ## client.py -/

/-- Embeds `AgentClient._handle_error_response`.  The four `get` calls are
performed before branching, exactly as in the source; each can raise
`AttributeError` when the receiver is not a dict. -/
def _handle_error_response (status : Int) (body : Json) : Except PyExc TypedError := do
  let error ← pyGet body "error" (.obj [])
  let message ← pyGet error "message" (.str "Unknown error")
  let code ← pyGet error "code" (.str "UNKNOWN")
  let details ← pyGet error "details" .null
  if status = 400 then pure (ValidationError message details)
  else if status = 401 then pure (AgentClientError message (.str "UNAUTHORIZED") (some status) .null)
  else if status = 403 then pure (AgentClientError message (.str "FORBIDDEN") (some status) .null)
  else if status = 404 then pure (NotFoundError message)
  else if status = 429 then pure (AgentClientError message (.str "RATE_LIMIT") (some status) .null)
  else if status ≥ 500 then pure (AgentClientError message (.str "SERVER_ERROR") (some status) .null)
  else pure (AgentClientError message code (some status) details)

/-- One attempt's interaction with the transport: either `aiohttp` raised a
`ClientError` before a response was obtained, or a response arrived and its
body parsed as JSON. -/
inductive TransportOutcome where
  | noResponse (msg : String) : TransportOutcome
  | response (status : Int) (body : Json) : TransportOutcome

/-- What one `make_request` invocation does: return the payload, raise a
taxonomy error, or raise a plain Python exception. -/
inductive MRResult where
  | ok (v : Json) : MRResult
  | typedErr (e : TypedError) : MRResult
  | pyExc (e : PyExc) : MRResult

/-- Embeds the inner coroutine `make_request` of `AgentClient.request`:
classify `status ≥ 400` bodies via `_handle_error_response`; for
`status < 400` treat a dict body whose `success` entry is falsy as an
application-level error; otherwise `return body.get("data", body)` —
which raises `AttributeError` when `body` is not a dict.  The
`except aiohttp.ClientError` clause is the `noResponse` arm; it wraps
the transport error as code `HTTP_ERROR` with no status. -/
def make_request (o : TransportOutcome) : MRResult :=
  match o with
  | .noResponse msg => .typedErr (AgentClientError (.str msg) (.str "HTTP_ERROR") none .null)
  | .response status body =>
    if status ≥ 400 then
      match _handle_error_response status body with
      | .ok te => .typedErr te
      | .error pe => .pyExc pe
    else
      match body with
      | .obj fields =>
        if !((jlookup "success" fields).getD (.bool true)).truthy then
          match (do
            let error ← pyGet body "error" (.obj [])
            let message ← pyGet error "message" (.str "Unknown error")
            let code ← pyGet error "code" (.str "UNKNOWN")
            let details ← pyGet error "details" .null
            pure (AgentClientError message code (some status) details) :
              Except PyExc TypedError) with
          | .ok te => .typedErr te
          | .error pe => .pyExc pe
        else .ok ((jlookup "data" fields).getD body)
      | _ => .pyExc (.attributeError "object has no attribute get")

/-- View an attempt result as `Except` so it can be driven by `retry`
(both a `TypedError` and a plain Python exception propagate as raised
exceptions, which `retry`'s `except Exception` catches). -/
def MRResult.toExcept : MRResult → Except (TypedError ⊕ PyExc) Json
  | .ok v => .ok v
  | .typedErr e => .error (.inl e)
  | .pyExc e => .error (.inr e)

/-- Embeds the `ClientMetrics` dataclass from `types.py`.  `last_error`
holds the raised error value and the timestamp string (the source stores
`str(error)` and an ISO timestamp). -/
structure ClientMetrics where
  total_requests : Nat
  successful_requests : Nat
  failed_requests : Nat
  total_errors : Nat
  average_latency : ℚ
  success_rate : ℚ
  error_rate : ℚ
  last_error : Option ((TypedError ⊕ PyExc) × String)

/-- `ClientMetrics()` defaults: all counters and rates zero. -/
def ClientMetrics.init : ClientMetrics :=
  { total_requests := 0, successful_requests := 0, failed_requests := 0
    total_errors := 0, average_latency := 0, success_rate := 0, error_rate := 0
    last_error := none }

/-- Embeds `AgentClient._update_metrics`: increments the counters, updates
the running average with the incremental-mean formula over the already
incremented total, and recomputes both rates from the counts. -/
def _update_metrics (m : ClientMetrics) (success : Bool) (latency : ℚ) : ClientMetrics :=
  let total := m.total_requests + 1
  let succ := if success then m.successful_requests + 1 else m.successful_requests
  let failed := if success then m.failed_requests else m.failed_requests + 1
  let errs := if success then m.total_errors else m.total_errors + 1
  { total_requests := total
    successful_requests := succ
    failed_requests := failed
    total_errors := errs
    average_latency := (m.average_latency * ((total : ℚ) - 1) + latency) / (total : ℚ)
    success_rate := ((succ : ℚ) / (total : ℚ)) * 100
    error_rate := ((failed : ℚ) / (total : ℚ)) * 100
    last_error := m.last_error }

/-- Embeds the top level of `AgentClient.request`: run `make_request`
through `retry` with the client's retry config; on overall success update
metrics once with `success := true`; on overall failure update metrics once
with `success := false`, store the failure in `last_error`, and re-raise.
`f` gives each attempt's transport outcome, `latency` the elapsed time and
`now` the timestamp used for `last_error`. -/
def request (m : ClientMetrics) (f : Nat → TransportOutcome) (cfg : RetryConfig)
    (latency : ℚ) (now : String) :
    Except (TypedError ⊕ PyExc) Json × ClientMetrics :=
  match (retry (fun n => (make_request (f n)).toExcept) cfg).1 with
  | .ok v => (.ok v, _update_metrics m true latency)
  | .error e =>
    (.error e, { _update_metrics m false latency with last_error := some (e, now) })

/-- The metrics state after a sequence of recorded outcomes, starting from
a fresh client's `ClientMetrics()` (each element is one `_update_metrics`
call: success flag and latency). -/
def runMetrics (ops : List (Bool × ℚ)) : ClientMetrics :=
  ops.foldl (fun m p => _update_metrics m p.1 p.2) ClientMetrics.init

/-- Inductive invariant of the metrics aggregator: the success/failure
split sums to the total, and both stored rates equal the recomputation from
the counts (zero before any request has completed). -/
def MetricsInv (m : ClientMetrics) : Prop :=
  m.successful_requests + m.failed_requests = m.total_requests ∧
  m.success_rate = (if m.total_requests = 0 then 0
    else ((m.successful_requests : ℚ) / (m.total_requests : ℚ)) * 100) ∧
  m.error_rate = (if m.total_requests = 0 then 0
    else ((m.failed_requests : ℚ) / (m.total_requests : ℚ)) * 100)

/-- Python's `url.rstrip("/")`: remove every trailing `'/'`. -/
def rstripSlashes (s : String) : String :=
  ⟨(s.toList.reverse.dropWhile (fun c => c = '/')).reverse⟩

/-- Embeds `AgentClient._validate_url`: empty → `ValidationError`; not
starting with `"http"` (Python `url.startswith("http")`, modelled by
`leadsWith` on the character list) → `ValidationError`; otherwise the URL
with trailing slashes stripped. -/
def _validate_url (url : String) : Except TypedError String :=
  if url = "" then .error (ValidationError (.str "api_url is required") .null)
  else if !(leadsWith "http".toList url.toList) then
    .error (ValidationError (.str "api_url must start with http:// or https://") .null)
  else .ok (rstripSlashes url)

/-! ## Helper lemmas -/

/-- Unfolding lemma: on an always-failing operation, the retry loop starting
at attempt `a` with `r` retries remaining performs `r + 1` invocations and
ends with the error of attempt `a + r`. -/
theorem retryFrom_always_fails {E T : Type} (f : Nat → Except E T) (g : Nat → E)
    (h : ∀ n, f n = Except.error (g n)) (cfg : RetryConfig) :
    ∀ r a, (retryFrom f cfg r a).1 = Except.error (g (a + r)) ∧
      (retryFrom f cfg r a).2.1 = r + 1 := by
  intro r
  induction r with
  | zero =>
    intro a
    unfold retryFrom
    simp [h a]
  | succ r ih =>
    intro a
    have h2 := ih (a + 1)
    rw [show a + (r + 1) = (a + 1) + r by omega]
    unfold retryFrom
    simp [h a, h2.1, h2.2]

/-- `pyTrunc` agrees with the floor on non-negative arguments. -/
theorem pyTrunc_eq_floor (q : ℚ) (h : 0 ≤ q) : pyTrunc q = Int.floor q := by
  simp [pyTrunc, not_lt.mpr h]

/-- `leadsWith` tests exactly that the first `n.length` characters of `h`
are `n`. -/
theorem leadsWith_iff_take (n : List Char) :
    ∀ h : List Char, leadsWith n h = true ↔ h.take n.length = n := by
  induction n with
  | nil => intro h; simp [leadsWith]
  | cons a as ih =>
    intro h
    cases h with
    | nil => simp [leadsWith]
    | cons b bs =>
      simp only [leadsWith, Bool.and_eq_true, beq_iff_eq, ih, List.length_cons,
        List.take_succ_cons, List.cons.injEq]
      constructor
      · rintro ⟨h1, h2⟩
        exact ⟨h1.symm, h2⟩
      · rintro ⟨h1, h2⟩
        exact ⟨h1.symm, h2⟩

/-- After dropping the leading slashes of a (reversed) character list, the
remainder — read back in forward order — does not end in a slash. -/
theorem dropWhile_slash_reverse_getLast (l : List Char) :
    ((l.dropWhile (fun c => c = '/')).reverse).getLast? ≠ some '/' := by
  induction l with
  | nil => simp
  | cons c t ih =>
    by_cases hc : c = '/'
    · simpa [List.dropWhile_cons, hc] using ih
    · simp [List.dropWhile_cons, hc, List.getLast?_concat]

/-- `rstripSlashes` splits the string: the original character list is the
stripped result followed by a run of slashes, and the stripped result does
not end in a slash. -/
theorem rstripSlashes_split (s : String) :
    ∃ k, s.toList = (rstripSlashes s).toList ++ List.replicate k '/' ∧
      (rstripSlashes s).toList.getLast? ≠ some '/' := by
  refine ⟨(s.toList.reverse.takeWhile (fun c => c = '/')).length, ?_,
    dropWhile_slash_reverse_getLast s.toList.reverse⟩
  have ht : s.toList.reverse.takeWhile (fun c => c = '/') =
      List.replicate (s.toList.reverse.takeWhile (fun c => c = '/')).length '/' :=
    List.eq_replicate_iff.mpr ⟨rfl, fun b hb => by
      simpa using List.mem_takeWhile_imp hb⟩
  conv_lhs => rw [← s.toList.reverse_reverse,
    ← List.takeWhile_append_dropWhile (p := fun c => decide (c = '/'))
      (l := s.toList.reverse)]
  rw [List.reverse_append]
  congr 1
  rw [ht]
  simp

/-- The fresh metrics state satisfies the aggregator invariant. -/
theorem metricsInv_init : MetricsInv ClientMetrics.init := by
  refine ⟨rfl, ?_, ?_⟩ <;> simp [ClientMetrics.init]

/-- `_update_metrics` preserves the aggregator invariant. -/
theorem metricsInv_update (m : ClientMetrics) (hm : MetricsInv m) (s : Bool) (l : ℚ) :
    MetricsInv (_update_metrics m s l) := by
  obtain ⟨h1, -, -⟩ := hm
  unfold _update_metrics MetricsInv
  cases s <;> simp <;> omega

/-- Every reachable metrics state satisfies the aggregator invariant. -/
theorem metricsInv_run (ops : List (Bool × ℚ)) : MetricsInv (runMetrics ops) := by
  unfold runMetrics
  suffices h : ∀ m, MetricsInv m →
      MetricsInv (ops.foldl (fun m p => _update_metrics m p.1 p.2) m) from
    h _ metricsInv_init
  induction ops with
  | nil => intro m hm; exact hm
  | cons p t ih =>
    intro m hm
    exact ih _ (metricsInv_update m hm p.1 p.2)

/-! ## Claim theorems -/

/-- C1: for every `RetryPolicy` with `max_retries = R` and every operation
that fails on every invocation, `retry` invokes the operation exactly `R + 1`
times and propagates the exception of the final attempt (attempt index `R`)
to the caller unchanged, with no wrapping. -/
theorem retry_always_fails_spec {E T : Type} (cfg : RetryConfig)
    (f : Nat → Except E T) (g : Nat → E) (h : ∀ n, f n = Except.error (g n)) :
    (retry f cfg).1 = Except.error (g cfg.max_retries) ∧
      (retry f cfg).2.1 = cfg.max_retries + 1 := by
  have := retryFrom_always_fails f g h cfg cfg.max_retries 0
  simpa [retry] using this

/-- Witness for C1: with `max_retries = 2` and the operation failing with
error `n` on attempt `n`, the caller sees error `2` after exactly 3 calls. -/
theorem retry_always_fails_spec_witness :
    (retry (fun n => (Except.error n : Except Nat Nat)) ⟨2, 100, 10000, 2⟩).1 =
        Except.error 2 ∧
      (retry (fun n => (Except.error n : Except Nat Nat)) ⟨2, 100, 10000, 2⟩).2.1 = 3 :=
  retry_always_fails_spec ⟨2, 100, 10000, 2⟩ _ (fun n => n) (fun _ => rfl)

/-- C7: under the RetryPolicy constraints (non-negative initial and max
delay, multiplier ≥ 1), the backoff delay for attempt `a` equals
`min(initial * multiplier^(a-1), max)` (with Python's `int()` truncation),
is non-negative, and is monotonically non-decreasing in the attempt
number. -/
theorem calculate_delay_spec (initial_delay max_delay : Int) (mult : ℚ)
    (hinit : 0 ≤ initial_delay) (hmax : 0 ≤ max_delay) (hmult : 1 ≤ mult) :
    (∀ a : Nat, calculate_delay a initial_delay max_delay mult =
      min (pyTrunc ((initial_delay : ℚ) * mult ^ (a - 1))) max_delay) ∧
    (∀ a : Nat, 0 ≤ calculate_delay a initial_delay max_delay mult) ∧
    (∀ a b : Nat, a ≤ b →
      calculate_delay a initial_delay max_delay mult ≤
        calculate_delay b initial_delay max_delay mult) := by
  have hm0 : (0 : ℚ) ≤ mult := le_trans zero_le_one hmult
  have hqnn : ∀ a : Nat, (0 : ℚ) ≤ (initial_delay : ℚ) * mult ^ (a - 1) := by
    intro a
    exact mul_nonneg (by exact_mod_cast hinit) (pow_nonneg hm0 _)
  refine ⟨fun _ => rfl, ?_, ?_⟩
  · intro a
    rw [calculate_delay, pyTrunc_eq_floor _ (hqnn a)]
    refine le_min ?_ hmax
    exact Int.le_floor.mpr (by exact_mod_cast hqnn a)
  · intro a b hab
    rw [calculate_delay, calculate_delay,
      pyTrunc_eq_floor _ (hqnn a), pyTrunc_eq_floor _ (hqnn b)]
    refine min_le_min ?_ le_rfl
    refine Int.floor_le_floor ?_
    refine mul_le_mul_of_nonneg_left ?_ (by exact_mod_cast hinit)
    exact pow_le_pow_right₀ hmult (by omega)

/-- Witness for C7: with initial 100, max 10000, multiplier 2, the delay at
attempt 3 is non-negative and at least the delay at attempt 1. -/
theorem calculate_delay_spec_witness :
    0 ≤ calculate_delay 3 100 10000 2 ∧
      calculate_delay 1 100 10000 2 ≤ calculate_delay 3 100 10000 2 :=
  ⟨(calculate_delay_spec 100 10000 2 (by norm_num) (by norm_num) (by norm_num)).2.1 3,
   (calculate_delay_spec 100 10000 2 (by norm_num) (by norm_num) (by norm_num)).2.2 1 3
     (by norm_num)⟩

/-- C8 counterexample: the message `"wait 5 minutes"` contains none of the
spec's retryability indicators (connection failure, timeout, not-found, a
5xx status, 429/rate limit, service unavailable), yet `is_retryable_error`
classifies it as retryable, because the code's 5xx test is the substring
test `"5" in message`. -/
theorem is_retryable_error_not_spec_indicators :
    is_retryable_error "wait 5 minutes" = true ∧
      specRetryIndicated "wait 5 minutes" = false := by
  exact ⟨by decide, by decide⟩

/-- C8 amended: `is_retryable_error` classifies a failure as retryable if
and only if its lowercased message contains one of the literal substrings
"connection refused", "connection reset", "timeout", "not found", "5"
(any occurrence of the digit 5 — the code's approximation of a 5xx
status), "server error", "429", "rate limit", "503", or
"service unavailable". -/
theorem is_retryable_error_characterisation (err : String) :
    is_retryable_error err = true ↔
      (inLower "connection refused" err = true ∨
       inLower "connection reset" err = true ∨
       inLower "timeout" err = true ∨
       inLower "not found" err = true ∨
       inLower "5" err = true ∨
       inLower "server error" err = true ∨
       inLower "429" err = true ∨
       inLower "rate limit" err = true ∨
       inLower "503" err = true ∨
       inLower "service unavailable" err = true) := by
  unfold is_retryable_error
  split
  · rename_i h
    simp only [Bool.or_eq_true] at h
    simp only [true_iff]
    tauto
  split
  · rename_i h
    simp only [Bool.or_eq_true] at h
    simp only [true_iff]
    tauto
  split
  · rename_i h
    simp only [Bool.or_eq_true] at h
    simp only [true_iff]
    tauto
  split
  · rename_i h
    simp only [Bool.or_eq_true] at h
    simp only [true_iff]
    tauto
  rename_i h1 h2 h3 h4
  simp only [Bool.or_eq_true, not_or] at h1 h2 h3 h4
  simp only [Bool.false_eq_true, false_iff]
  tauto

/-- Witness for the amended C8 characterisation: evaluated at the message
"request timeout", whose lowercased form contains "timeout". -/
theorem is_retryable_error_characterisation_witness :
    is_retryable_error "request timeout" = true :=
  (is_retryable_error_characterisation "request timeout").mpr
    (Or.inr (Or.inr (Or.inl (by decide))))

/-- C10: `_validate_url` accepts exactly the non-empty URLs whose first four
characters are `http`, stores the accepted URL with every trailing `/`
removed (so the stored value never ends in `/` and the original URL is the
stored value followed by some run of slashes), rejects everything else with
a `ValidationError`, and in particular accepts `"httpfoo://x"` as is and
stores `"http://x///"` as `"http://x"`. -/
theorem validate_url_spec :
    (∀ url : String, (∃ v, _validate_url url = .ok v) ↔
      (url ≠ "" ∧ url.toList.take 4 = "http".toList)) ∧
    (∀ url v, _validate_url url = .ok v →
      ∃ k, url.toList = v.toList ++ List.replicate k '/' ∧
        v.toList.getLast? ≠ some '/') ∧
    (∀ url, (¬ ∃ v, _validate_url url = .ok v) →
      ∃ msg, _validate_url url = .error (ValidationError (.str msg) .null)) ∧
    _validate_url "httpfoo://x" = .ok "httpfoo://x" ∧
    _validate_url "http://x///" = .ok "http://x" := by
  have hfour : ∀ url : String,
      (leadsWith "http".toList url.toList = true) ↔ url.toList.take 4 = "http".toList :=
    fun url => leadsWith_iff_take "http".toList url.toList
  refine ⟨?_, ?_, ?_, rfl, rfl⟩
  · intro url
    rw [← hfour url]
    by_cases h1 : url = ""
    · simp [_validate_url, h1]
    by_cases h2 : leadsWith "http".toList url.toList = true
    · unfold _validate_url
      rw [if_neg h1, h2]
      constructor
      · intro _
        exact ⟨h1, rfl⟩
      · intro _
        exact ⟨rstripSlashes url, rfl⟩
    · rw [Bool.not_eq_true] at h2
      unfold _validate_url
      rw [if_neg h1, h2]
      constructor
      · rintro ⟨v, hv⟩
        exact Except.noConfusion hv
      · rintro ⟨-, hcon⟩
        exact Bool.noConfusion hcon
  · intro url v hv
    unfold _validate_url at hv
    split at hv
    · cases hv
    split at hv
    · cases hv
    cases hv
    exact rstripSlashes_split url
  · intro url h
    by_cases h1 : url = ""
    · exact ⟨"api_url is required", by
        unfold _validate_url
        rw [if_pos h1]⟩
    by_cases h2 : leadsWith "http".toList url.toList = true
    · refine absurd ⟨rstripSlashes url, ?_⟩ h
      unfold _validate_url
      rw [if_neg h1, h2]
      rfl
    · rw [Bool.not_eq_true] at h2
      exact ⟨"api_url must start with http:// or https://", by
        unfold _validate_url
        rw [if_neg h1, h2]
        rfl⟩

/-- Witness for C10: the slash-stripping split evaluated at the accepted
URL `"http://x///"` with stored value `"http://x"`. -/
theorem validate_url_spec_witness :
    ∃ k, "http://x///".toList = "http://x".toList ++ List.replicate k '/' ∧
      "http://x".toList.getLast? ≠ some '/' :=
  validate_url_spec.2.1 "http://x///" "http://x" rfl

/-- C5: after any sequence of record operations the metrics state satisfies
`successful_requests + failed_requests = total_requests`; when
`total_requests > 0` the two rates sum to exactly 100; both rates always lie
in `[0, 100]` and equal the recomputation from the counts; moreover every
single `_update_metrics` call stores rates recomputed from the updated
counts (never mutated independently). -/
theorem metrics_invariant_spec :
    (∀ ops : List (Bool × ℚ),
      (runMetrics ops).successful_requests + (runMetrics ops).failed_requests =
        (runMetrics ops).total_requests ∧
      (0 < (runMetrics ops).total_requests →
        (runMetrics ops).success_rate + (runMetrics ops).error_rate = 100) ∧
      (0 ≤ (runMetrics ops).success_rate ∧ (runMetrics ops).success_rate ≤ 100) ∧
      (0 ≤ (runMetrics ops).error_rate ∧ (runMetrics ops).error_rate ≤ 100) ∧
      (0 < (runMetrics ops).total_requests →
        (runMetrics ops).success_rate =
          ((runMetrics ops).successful_requests : ℚ) /
            ((runMetrics ops).total_requests : ℚ) * 100 ∧
        (runMetrics ops).error_rate =
          ((runMetrics ops).failed_requests : ℚ) /
            ((runMetrics ops).total_requests : ℚ) * 100)) ∧
    (∀ (m : ClientMetrics) (s : Bool) (l : ℚ),
      (_update_metrics m s l).success_rate =
        ((_update_metrics m s l).successful_requests : ℚ) /
          ((_update_metrics m s l).total_requests : ℚ) * 100 ∧
      (_update_metrics m s l).error_rate =
        ((_update_metrics m s l).failed_requests : ℚ) /
          ((_update_metrics m s l).total_requests : ℚ) * 100) := by
  constructor
  · intro ops
    obtain ⟨h1, h2, h3⟩ := metricsInv_run ops
    by_cases ht : (runMetrics ops).total_requests = 0
    · refine ⟨h1, fun hpos => absurd hpos (by omega), ?_, ?_,
        fun hpos => absurd hpos (by omega)⟩
      · rw [h2, if_pos ht]
        norm_num
      · rw [h3, if_pos ht]
        norm_num
    · have htpos : 0 < (runMetrics ops).total_requests := Nat.pos_of_ne_zero ht
      have htqpos : (0 : ℚ) < ((runMetrics ops).total_requests : ℚ) := by
        exact_mod_cast htpos
      have hq : ((runMetrics ops).successful_requests : ℚ) +
          ((runMetrics ops).failed_requests : ℚ) =
          ((runMetrics ops).total_requests : ℚ) := by
        exact_mod_cast h1
      have hsle : ((runMetrics ops).successful_requests : ℚ) ≤
          ((runMetrics ops).total_requests : ℚ) := by
        have : (runMetrics ops).successful_requests ≤ (runMetrics ops).total_requests := by
          omega
        exact_mod_cast this
      have hfle : ((runMetrics ops).failed_requests : ℚ) ≤
          ((runMetrics ops).total_requests : ℚ) := by
        have : (runMetrics ops).failed_requests ≤ (runMetrics ops).total_requests := by
          omega
        exact_mod_cast this
      rw [h2, h3]
      simp only [if_neg ht]
      refine ⟨h1, fun _ => ?_, ⟨?_, ?_⟩, ⟨?_, ?_⟩, fun _ => ⟨by trivial, by trivial⟩⟩
      · field_simp
        linarith [hq]
      · positivity
      · have hdiv : ((runMetrics ops).successful_requests : ℚ) /
            ((runMetrics ops).total_requests : ℚ) ≤ 1 :=
          (div_le_one htqpos).mpr hsle
        nlinarith [hdiv]
      · positivity
      · have hdiv : ((runMetrics ops).failed_requests : ℚ) /
            ((runMetrics ops).total_requests : ℚ) ≤ 1 :=
          (div_le_one htqpos).mpr hfle
        nlinarith [hdiv]
  · intro m s l
    exact ⟨rfl, rfl⟩

/-- Witness for C5: after one successful request the rates sum to 100. -/
theorem metrics_invariant_spec_witness :
    (runMetrics [(true, 5)]).success_rate + (runMetrics [(true, 5)]).error_rate = 100 :=
  (metrics_invariant_spec.1 [(true, 5)]).2.1 (by decide)

/-- C2: evaluation at the failing input `initialize(); close(); acquire()`.
`acquire` on the closed pool does not fail: it returns the previously
created — now closed — session object, because `close` never resets
`self.session` to `None` and `acquire` only checks `self.session is None`
(the `_closed` flag is set but never consulted, and the `ConnectionError`
class in `errors.py` is never raised).  This contradicts the claim that
every acquire after close fails with a connection error. -/
theorem acquire_after_close_returns_closed_session :
    (PoolState.acquire (PoolState.close (PoolState.initializePool PoolState.init))).1 =
        ⟨0, true⟩ ∧
      (PoolState.acquire (PoolState.close (PoolState.initializePool PoolState.init))).1.closed =
        true ∧
      (PoolState.acquire (PoolState.close (PoolState.initializePool PoolState.init))).2 =
        PoolState.close (PoolState.initializePool PoolState.init) ∧
      (PoolState.close (PoolState.initializePool PoolState.init)).closedFlag = true := by
  decide

/-- C9: `close` on a pool whose session was never created does nothing —
the state is unchanged (in particular the pool is not marked closed), and a
later `acquire` still lazily initializes and returns a fresh open session. -/
theorem close_without_session_noop (s : PoolState) (h : s.session = none) :
    s.close = s ∧
      (s.close.acquire).1 = ⟨s.nextGen, false⟩ ∧
      (s.close.acquire).2.session = some ⟨s.nextGen, false⟩ ∧
      (s.close.acquire).2.closedFlag = s.closedFlag := by
  have hc : s.close = s := by
    unfold PoolState.close
    rw [h]
  refine ⟨hc, ?_, ?_, ?_⟩ <;>
    rw [hc] <;>
    unfold PoolState.acquire PoolState.initializePool <;>
    rw [h]

/-- Witness for C9 at the freshly constructed pool. -/
theorem close_without_session_noop_witness :
    PoolState.init.close = PoolState.init ∧
      (PoolState.init.close.acquire).1 = ⟨0, false⟩ ∧
      (PoolState.init.close.acquire).2.session = some ⟨0, false⟩ ∧
      (PoolState.init.close.acquire).2.closedFlag = PoolState.init.closedFlag :=
  close_without_session_noop PoolState.init rfl

/-- C6: every completed top-level `request` call updates the metrics
aggregator exactly once — the total grows by exactly 1 and the update is a
single success record or a single failure record (with `last_error` set),
for every attempt-outcome sequence `f`, i.e. regardless of how many retry
attempts occurred internally. -/
theorem request_updates_metrics_once (m : ClientMetrics) (f : Nat → TransportOutcome)
    (cfg : RetryConfig) (latency : ℚ) (now : String) :
    (request m f cfg latency now).2.total_requests = m.total_requests + 1 ∧
    (request m f cfg latency now).2.successful_requests +
        (request m f cfg latency now).2.failed_requests =
      m.successful_requests + m.failed_requests + 1 ∧
    (∀ v, (request m f cfg latency now).1 = .ok v →
      (request m f cfg latency now).2 = _update_metrics m true latency) ∧
    (∀ e, (request m f cfg latency now).1 = .error e →
      (request m f cfg latency now).2 =
        { _update_metrics m false latency with last_error := some (e, now) }) := by
  unfold request
  cases hres : (retry (fun n => (make_request (f n)).toExcept) cfg).1 with
  | ok v =>
    simp only [hres]
    refine ⟨rfl, ?_, fun v' _ => by trivial, fun e he => Except.noConfusion he⟩
    simp [_update_metrics]
    omega
  | error e =>
    simp only [hres]
    refine ⟨rfl, ?_, fun v' hv => Except.noConfusion hv, fun e' he' => ?_⟩
    · simp [_update_metrics]
      omega
    · cases he'
      rfl

/-- Witness for C6: a request whose first attempt succeeds with payload
`{"data": 1}` records exactly one success. -/
theorem request_updates_metrics_once_witness :
    (request ClientMetrics.init
        (fun _ => .response 200 (.obj [("data", .num 1)])) ⟨3, 100, 10000, 2⟩ 1 "t").2 =
      _update_metrics ClientMetrics.init true 1 :=
  (request_updates_metrics_once ClientMetrics.init
      (fun _ => .response 200 (.obj [("data", .num 1)])) ⟨3, 100, 10000, 2⟩ 1 "t").2.2.1
    (.num 1) rfl

/-- C3: evaluation at the failing input — a completed response with HTTP
status 200 whose JSON body is the array `[1, 2, 3]` (not an object).  The
claim says the caller receives the whole body; instead `make_request`
reaches `body.get("data", body)` and raises `AttributeError`, an exception
outside the typed taxonomy ( `retry` then re-raises it to the caller). -/
theorem non_dict_body_raises_attribute_error :
    make_request (.response 200 (.arr [.num 1, .num 2, .num 3])) =
      .pyExc (.attributeError "object has no attribute get") ∧
    (retry (fun _ =>
        (make_request (.response 200 (.arr [.num 1, .num 2, .num 3]))).toExcept)
      ⟨3, 100, 10000, 2⟩).1 =
      .error (.inr (.attributeError "object has no attribute get")) := by
  constructor
  · rfl
  · rfl

/-- C4: for every HTTP outcome the error classifier produces exactly the
prescribed `TypedError` (stated over a response body carrying an error
object with message/code/details): 400 → validation error with the body's
details; 401 → `UNAUTHORIZED`; 403 → `FORBIDDEN`; 404 → not-found with the
body's message; 429 → `RATE_LIMIT`; every status ≥ 500 → `SERVER_ERROR`;
any other status ≥ 400 → generic client error with the body's code, message
and details; a status < 400 whose body carries `success: false` → generic
client error built from the body's error object at the response's status;
and a transport failure with no response → error code `HTTP_ERROR`. -/
theorem handle_error_response_taxonomy (msg code dets : Json) :
    (_handle_error_response 400
        (.obj [("error", .obj [("message", msg), ("code", code), ("details", dets)])]) =
      .ok (ValidationError msg dets)) ∧
    (_handle_error_response 401
        (.obj [("error", .obj [("message", msg), ("code", code), ("details", dets)])]) =
      .ok (AgentClientError msg (.str "UNAUTHORIZED") (some 401) .null)) ∧
    (_handle_error_response 403
        (.obj [("error", .obj [("message", msg), ("code", code), ("details", dets)])]) =
      .ok (AgentClientError msg (.str "FORBIDDEN") (some 403) .null)) ∧
    (_handle_error_response 404
        (.obj [("error", .obj [("message", msg), ("code", code), ("details", dets)])]) =
      .ok (NotFoundError msg)) ∧
    (_handle_error_response 429
        (.obj [("error", .obj [("message", msg), ("code", code), ("details", dets)])]) =
      .ok (AgentClientError msg (.str "RATE_LIMIT") (some 429) .null)) ∧
    (∀ status : Int, 500 ≤ status →
      _handle_error_response status
          (.obj [("error", .obj [("message", msg), ("code", code), ("details", dets)])]) =
        .ok (AgentClientError msg (.str "SERVER_ERROR") (some status) .null)) ∧
    (∀ status : Int, 400 ≤ status → status < 500 →
      status ≠ 400 → status ≠ 401 → status ≠ 403 → status ≠ 404 → status ≠ 429 →
      _handle_error_response status
          (.obj [("error", .obj [("message", msg), ("code", code), ("details", dets)])]) =
        .ok (AgentClientError msg code (some status) dets)) ∧
    (∀ status : Int, status < 400 →
      make_request (.response status
          (.obj [("success", .bool false),
            ("error", .obj [("message", msg), ("code", code), ("details", dets)])])) =
        .typedErr (AgentClientError msg code (some status) dets)) ∧
    (∀ tmsg : String, make_request (.noResponse tmsg) =
      .typedErr (AgentClientError (.str tmsg) (.str "HTTP_ERROR") none .null)) := by
  refine ⟨rfl, rfl, rfl, rfl, rfl, ?_, ?_, ?_, fun tmsg => rfl⟩
  · intro status h
    unfold _handle_error_response
    simp only [pyGet, jlookup, bind, Except.bind, pure, Except.pure, Option.getD]
    simp only [reduceIte]
    rw [if_neg (by omega), if_neg (by omega), if_neg (by omega), if_neg (by omega),
      if_neg (by omega), if_pos h]
    rfl
  · intro status h1 h2 h3 h4 h5 h6 h7
    unfold _handle_error_response
    simp only [pyGet, jlookup, bind, Except.bind, pure, Except.pure, Option.getD]
    simp only [reduceIte]
    rw [if_neg h3, if_neg h4, if_neg h5, if_neg h6, if_neg h7, if_neg (by omega)]
    rfl
  · intro status h
    simp only [make_request]
    rw [if_neg (by omega)]
    rfl

/-- Witness for C4: the quantified-status branches evaluated at statuses
503, 402 and 200, with the concrete error object from the spec's classifier
scenarios. -/
theorem handle_error_response_taxonomy_witness :
    _handle_error_response 503
        (.obj [("error", .obj [("message", .str "bad state"), ("code", .str "X"),
          ("details", .null)])]) =
      .ok (AgentClientError (.str "bad state") (.str "SERVER_ERROR") (some 503) .null) ∧
    _handle_error_response 402
        (.obj [("error", .obj [("message", .str "bad state"), ("code", .str "X"),
          ("details", .null)])]) =
      .ok (AgentClientError (.str "bad state") (.str "X") (some 402) .null) ∧
    make_request (.response 200
        (.obj [("success", .bool false),
          ("error", .obj [("message", .str "bad state"), ("code", .str "X"),
            ("details", .null)])])) =
      .typedErr (AgentClientError (.str "bad state") (.str "X") (some 200) .null) :=
  ⟨(handle_error_response_taxonomy (.str "bad state") (.str "X") .null).2.2.2.2.2.1
      503 (by norm_num),
   (handle_error_response_taxonomy (.str "bad state") (.str "X") .null).2.2.2.2.2.2.1
      402 (by norm_num) (by norm_num) (by norm_num) (by norm_num) (by norm_num)
      (by norm_num) (by norm_num),
   (handle_error_response_taxonomy (.str "bad state") (.str "X") .null).2.2.2.2.2.2.2.1
      200 (by norm_num)⟩

end AiAgent
